import Mathlib

/-!
Shallow embedding of the news-dashboard client core
(frontend/news-app/src/App.tsx, components/KeywordNetwork.tsx,
api/newsApi.ts): article data model, filter pipeline, pagination,
facet lists, favorite toggling, batched data loading, and the
keyword-network renderer.
-/

namespace NewsApp

/-- `Article` record from api/newsApi.ts (TS `interface Article`). -/
structure Article where
  id : Int
  title : String
  link : String
  published : String
  source : String
  summary : Option String
  keywords : Option (List String)
  main_category : Option String
  sub_category : Option String
  is_favorite : Bool
deriving DecidableEq

/-- Filter state record from App.tsx (`filters` useState).  Empty string in
`searchTerm`, `dateFrom`, `dateTo` plays the role of JS falsiness (unset). -/
structure Filters where
  searchTerm : String
  selectedSource : String
  selectedCategory : String
  favoritesOnly : Bool
  dateFrom : String
  dateTo : String
deriving DecidableEq

/-- JS `s.includes(pat)`: `pat` occurs as a contiguous substring of `s`. -/
def jsIncludes (s pat : String) : Bool :=
  decide (pat.toList <:+: s.toList)

/-- The six per-article predicates of the filter effect, App.tsx lines 155-165.
First filter: `filters.favoritesOnly ? a.is_favorite : true`. -/
def favPred (f : Filters) (a : Article) : Bool :=
  if f.favoritesOnly then a.is_favorite else true

/-- `filters.selectedSource === 'all' ? true : a.source === filters.selectedSource`. -/
def sourcePred (f : Filters) (a : Article) : Bool :=
  if f.selectedSource = "all" then true else a.source == f.selectedSource

/-- `filters.selectedCategory === 'all' ? true : a.main_category === filters.selectedCategory`.
An absent `main_category` (undefined) is never `===` to a string. -/
def categoryPred (f : Filters) (a : Article) : Bool :=
  if f.selectedCategory = "all" then true else a.main_category == some f.selectedCategory

/-- JS `>=` on `Date` objects: an Invalid Date (NaN timestamp, modelled as
`none`) compares false against everything. -/
def jsGe (x y : Option Int) : Bool :=
  match x, y with
  | some x, some y => y ≤ x
  | _, _ => false

/-- JS `<=` on `Date` objects; NaN comparisons are false. -/
def jsLe (x y : Option Int) : Bool :=
  match x, y with
  | some x, some y => x ≤ y
  | _, _ => false

/-- `filters.dateFrom ? new Date(a.published) >= new Date(filters.dateFrom) : true`.
`jsDate` abstracts `new Date(·)`'s string parsing; `none` is Invalid Date. -/
def dateFromPred (jsDate : String → Option Int) (f : Filters) (a : Article) : Bool :=
  if f.dateFrom = "" then true else jsGe (jsDate a.published) (jsDate f.dateFrom)

/-- `filters.dateTo ? new Date(a.published) <= new Date(filters.dateTo) : true`. -/
def dateToPred (jsDate : String → Option Int) (f : Filters) (a : Article) : Bool :=
  if f.dateTo = "" then true else jsLe (jsDate a.published) (jsDate f.dateTo)

/-- The text-search filter, App.tsx lines 161-165:
`if (!filters.searchTerm) return true;
 const lower = filters.searchTerm.toLowerCase();
 return a.title.toLowerCase().includes(lower) || a.summary?.toLowerCase().includes(lower);`
With `summary` absent the optional chain yields `undefined`, which is falsy. -/
def matchesSearch (f : Filters) (a : Article) : Bool :=
  if f.searchTerm = "" then true
  else
    let lower := f.searchTerm.toLower
    jsIncludes a.title.toLower lower ||
      (match a.summary with
       | some s => jsIncludes s.toLower lower
       | none => false)

/-- The whole filter chain of the effect at App.tsx lines 154-168, in source
order. -/
def computeFiltered (jsDate : String → Option Int) (articles : List Article)
    (f : Filters) : List Article :=
  (((((articles.filter (favPred f)).filter (sourcePred f)).filter
      (categoryPred f)).filter (dateFromPred jsDate f)).filter
      (dateToPred jsDate f)).filter (matchesSearch f)

/-- The categories facet, App.tsx line 203:
`[...new Set(articles.map(a => a.main_category).filter(Boolean) as string[])].sort()`.
`filter(Boolean)` drops `undefined` and the empty string; `Set` deduplicates;
`.sort()` sorts ascending lexicographically. -/
def categoriesFacet (articles : List Article) : List String :=
  List.insertionSort (fun x y => x ≤ y)
    (((articles.map Article.main_category).filterMap id).filter (fun s => s ≠ "")).dedup

/-- `itemsPerPage = 10` (App.tsx line 125). -/
def itemsPerPage : Nat := 10

/-- `filteredArticles.slice((currentPage - 1) * itemsPerPage, currentPage * itemsPerPage)`
(App.tsx line 204).  JS `slice(start, end)` drops `start` elements and keeps at
most `end - start` more. -/
def paginate (l : List Article) (page pageSize : Nat) : List Article :=
  (l.drop ((page - 1) * pageSize)).take (page * pageSize - (page - 1) * pageSize)

/-- `Math.ceil(filteredArticles.length / itemsPerPage)` (App.tsx line 259),
generalised over the page size. -/
def totalPages (n pageSize : Nat) : Nat :=
  Nat.ceil ((n : ℚ) / (pageSize : ℚ))

/-- The pagination control is rendered exactly when
`Math.ceil(filteredArticles.length / itemsPerPage) > 1` (App.tsx line 259). -/
def showPagination (filteredArticles : List Article) : Bool :=
  decide (1 < Nat.ceil ((filteredArticles.length : ℚ) / (itemsPerPage : ℚ)))

/-- The per-article update inside `handleToggleFavorite`'s `articles.map`
(App.tsx line 186): `a.id === articleId ? { ...a, is_favorite: !a.is_favorite } : a`. -/
def toggleOne (articleId : Int) (a : Article) : Article :=
  if a.id == articleId then { a with is_favorite := !a.is_favorite } else a

/-- `handleToggleFavorite` (App.tsx lines 180-188), with the remote call
abstracted away (the claim ignores network failures): look the id up with
`articles.find(...)`, return unchanged when absent, otherwise map the flip
over the collection. -/
def toggleFavorite (articles : List Article) (articleId : Int) : List Article :=
  match articles.find? (fun a => a.id == articleId) with
  | none => articles
  | some _ => articles.map (toggleOne articleId)

/-- `KeywordStat` record from api/newsApi.ts. -/
structure KeywordStat where
  keyword : String
  count : Nat
deriving DecidableEq

/-- `CategoryStat` record from api/newsApi.ts. -/
structure CategoryStat where
  category : String
  count : Nat
deriving DecidableEq

/-- A node of the `NetworkData` payload from api/newsApi.ts. -/
structure NetNode where
  id : String
  label : String
  value : ℚ
deriving DecidableEq

/-- An edge of the `NetworkData` payload from api/newsApi.ts. -/
structure NetEdge where
  source : String
  target : String
  value : ℚ
deriving DecidableEq

/-- `NetworkData` record from api/newsApi.ts. -/
structure NetworkData where
  nodes : List NetNode
  edges : List NetEdge
deriving DecidableEq

/-- `Stats` record from api/newsApi.ts. -/
structure Stats where
  total_articles : Nat
  total_sources : Nat
  total_favorites : Nat
  daily_counts : List (String × Nat)
deriving DecidableEq

/-- `Collection` record from api/newsApi.ts; the untyped `rules` JSON record
is modelled as an association list. -/
structure Collection where
  name : String
  count : Nat
  rules : List (String × String)
  articles : List Article
deriving DecidableEq

/-- The slices of `App`'s component state that the modelled operations touch
(App.tsx lines 105-124). -/
structure AppState where
  articles : List Article
  filteredArticles : List Article
  stats : Option Stats
  keywordStats : List KeywordStat
  categoryStats : List CategoryStat
  networkData : Option NetworkData
  collections : List Collection
  currentPage : Nat
deriving DecidableEq

/-- The filter effect (App.tsx lines 154-168): recompute `filteredArticles`
from `articles` and the criteria, and reset `currentPage` to 1. -/
def applyFilter (jsDate : String → Option Int) (f : Filters) (s : AppState) :
    AppState :=
  { s with
    filteredArticles := computeFiltered jsDate s.articles f
    currentPage := 1 }

/-- The outcomes of the six concurrent fetches issued by `loadAllData`
(App.tsx lines 131-138), each either a value or a rejection of type `ε`. -/
structure FetchResults (ε : Type) where
  articles : Except ε (List Article)
  keywordStats : Except ε (List KeywordStat)
  categoryStats : Except ε (List CategoryStat)
  network : Except ε NetworkData
  stats : Except ε Stats
  collections : Except ε (List Collection)

/-- `Promise.all` over the six fetches: succeeds with the tuple when every
fetch succeeds, otherwise propagates a rejection. -/
def promiseAll {ε : Type} (r : FetchResults ε) :
    Except ε (List Article × List KeywordStat × List CategoryStat ×
      NetworkData × Stats × List Collection) := do
  let a ← r.articles
  let k ← r.keywordStats
  let c ← r.categoryStats
  let n ← r.network
  let st ← r.stats
  let co ← r.collections
  return (a, k, c, n, st, co)

/-- `loadAllData` (App.tsx lines 128-150): on success of the whole batch the
six setters run; on any rejection control jumps to `catch` before any setter
runs, so the prior state is kept. -/
def loadAllData {ε : Type} (s : AppState) (r : FetchResults ε) : AppState :=
  match promiseAll r with
  | .error _ => s
  | .ok (a, k, c, n, st, co) =>
    { s with
      articles := a
      keywordStats := k
      categoryStats := c
      networkData := some n
      stats := some st
      collections := co }

/-- A node of the network together with its randomly assigned canvas position
(KeywordNetwork.tsx lines 35-39); `posOf` abstracts the two `Math.random()`
draws made for the node at each index. -/
def positioned (posOf : Nat → ℚ × ℚ) (nodes : List NetNode) :
    List (NetNode × ℚ × ℚ) :=
  nodes.enum.map (fun p => (p.2, (posOf p.1).1, (posOf p.1).2))

/-- `nodes.find(n => n.id === i)` (KeywordNetwork.tsx lines 48-49). -/
def findNode (ns : List (NetNode × ℚ × ℚ)) (i : String) :
    Option (NetNode × ℚ × ℚ) :=
  ns.find? (fun np => np.1.id == i)

/-- The line segments drawn for the edges (KeywordNetwork.tsx lines 47-56):
an edge contributes a segment exactly when both endpoint ids resolve to a
positioned node; otherwise it is skipped. -/
def edgeSegments (ns : List (NetNode × ℚ × ℚ)) (edges : List NetEdge) :
    List ((ℚ × ℚ) × (ℚ × ℚ)) :=
  edges.filterMap (fun e =>
    match findNode ns e.source, findNode ns e.target with
    | some s, some t => some ((s.2.1, s.2.2), (t.2.1, t.2.2))
    | _, _ => none)

/-- The circle-plus-label draw commands for the nodes (KeywordNetwork.tsx
lines 59-69): id, label, the value driving the radius, and the position. -/
def nodeDraws (ns : List (NetNode × ℚ × ℚ)) :
    List (String × String × ℚ × ℚ × ℚ) :=
  ns.map (fun np => (np.1.id, np.1.label, np.1.value, np.2.1, np.2.2))

/-- Outcome of one render pass of `KeywordNetwork`: either the
"insufficient data" placeholder (nothing drawn) or the drawn segments and
node marks. -/
inductive RenderResult where
  | insufficient : RenderResult
  | drawn : List ((ℚ × ℚ) × (ℚ × ℚ)) → List (String × String × ℚ × ℚ × ℚ) →
      RenderResult
deriving DecidableEq

/-- One render pass of `KeywordNetwork` (KeywordNetwork.tsx lines 17-84):
`!data || !data.nodes.length || !data.edges.length` yields the placeholder
and draws nothing; otherwise nodes get random positions and the edges and
nodes are drawn. -/
def render (posOf : Nat → ℚ × ℚ) (data : Option NetworkData) : RenderResult :=
  match data with
  | none => .insufficient
  | some d =>
    if d.nodes.isEmpty || d.edges.isEmpty then .insufficient
    else
      .drawn (edgeSegments (positioned posOf d.nodes) d.edges)
        (nodeDraws (positioned posOf d.nodes))

/-- Transliteration of the SPEC's text-search sub-predicate (§4.2 item 6),
kept for refinement comparison with the code's `matchesSearch`: passes iff
the search term is empty, or the lower-cased term is a substring of the
lower-cased title, or of the lower-cased summary (absent summary treated as
the empty string), or of the lower-cased form of some keywords entry. -/
def searchSpec (f : Filters) (a : Article) : Bool :=
  (f.searchTerm = "") ||
  jsIncludes a.title.toLower f.searchTerm.toLower ||
  jsIncludes ((a.summary.getD "").toLower) f.searchTerm.toLower ||
  ((a.keywords.getD []).any (fun k => jsIncludes k.toLower f.searchTerm.toLower))

/-- Unfold `String.toLower` to a plain list map, so that concrete instances
reduce. -/
lemma toLower_data (s : String) : s.toLower = ⟨s.data.map Char.toLower⟩ :=
  String.map_eq Char.toLower s

lemma toList_eq_nil_iff (s : String) : s.toList = [] ↔ s = "" := by
  rw [String.ext_iff]
  have h : ("" : String).data = [] := rfl
  rw [h]
  exact Iff.rfl

lemma toLower_eq_empty_iff (s : String) : s.toLower = "" ↔ s = "" := by
  constructor
  · intro h
    have h2 : (String.map Char.toLower s).data = [] := congrArg String.data h
    rw [String.map_eq] at h2
    simp only [List.map_eq_nil_iff] at h2
    cases s
    simp_all
  · intro h
    subst h
    rw [toLower_data]
    rfl

/-- Concrete fixtures for counterexamples and witnesses. -/
def keywordOnlyArticle : Article :=
  { id := 3, title := "abc", link := "", published := "2024-01-03",
    source := "s3", summary := none, keywords := some ["economy"],
    main_category := none, sub_category := none, is_favorite := false }

def kitaArticle : Article :=
  { id := 2, title := "t", link := "", published := "2024-01-02",
    source := "s2", summary := none, keywords := none,
    main_category := some "기타", sub_category := none, is_favorite := false }

def sampleArticle : Article :=
  { id := 1, title := "alpha", link := "", published := "2024-01-15",
    source := "s1", summary := some "beta", keywords := none,
    main_category := some "econ", sub_category := none, is_favorite := false }

def econFilters : Filters :=
  { searchTerm := "econ", selectedSource := "all", selectedCategory := "all",
    favoritesOnly := false, dateFrom := "", dateTo := "" }

def emptyFilters : Filters :=
  { searchTerm := "", selectedSource := "all", selectedCategory := "all",
    favoritesOnly := false, dateFrom := "", dateTo := "" }

/-- Claim C1 as stated is false on the code: for an article whose only hit
for the search term is inside `keywords`, the spec-side predicate (which
searches keywords) passes while the code's text-search filter (which only
searches title and summary) fails. -/
theorem search_keywords_counterexample :
    searchSpec econFilters keywordOnlyArticle = true ∧
      matchesSearch econFilters keywordOnlyArticle = false := by
  constructor
  · simp only [searchSpec, toLower_data, jsIncludes]
    decide
  · simp only [matchesSearch, toLower_data, jsIncludes]
    decide

/-- Claim C1 (amended: the keywords clause dropped): the text-search
sub-predicate of the filter passes iff the search term is empty, or the
lower-cased term is a substring of the lower-cased title, or of the
lower-cased summary, an absent summary being treated as the empty string. -/
theorem matchesSearch_spec (f : Filters) (a : Article) :
    matchesSearch f a = true ↔
      (f.searchTerm = "" ∨
       f.searchTerm.toLower.toList <:+: a.title.toLower.toList ∨
       f.searchTerm.toLower.toList <:+: ((a.summary.getD "").toLower.toList)) := by
  by_cases hst : f.searchTerm = ""
  · simp [matchesSearch, hst]
  · have hlow : f.searchTerm.toLower ≠ "" := fun hc =>
      hst ((toLower_eq_empty_iff _).mp hc)
    cases hsum : a.summary with
    | none =>
      have hnil : (Option.getD (α := String) none "").toLower.toList = [] := by
        rw [Option.getD, toLower_data]
        rfl
      simp only [matchesSearch, hst, if_false, hsum, jsIncludes, hnil,
        Bool.or_eq_true, decide_eq_true_iff, List.infix_nil]
      constructor
      · rintro (h | h)
        · exact Or.inr (Or.inl h)
        · cases h
      · rintro (h | h | h)
        · exact h.elim
        · exact Or.inl h
        · exact absurd ((toList_eq_nil_iff _).mp h) hlow
    | some s =>
      simp [matchesSearch, hst, hsum, jsIncludes]

/-- Claim C2 as stated is false on the code: the facet list built at App.tsx
line 203 filters out only falsy values (`undefined`, `""`), not the sentinel
"기타", so a collection whose one article carries `main_category = "기타"`
produces the facet list `["기타"]` instead of the empty list the claim
demands. -/
theorem categories_sentinel_counterexample :
    categoriesFacet [kitaArticle] = ["기타"] := by
  decide

/-- Claim C2 (amended: the sentinel "기타" is NOT excluded): the categories
facet list contains exactly the unique non-empty `main_category` values
(including "기타" when present), with no duplicates, sorted ascending. -/
theorem categoriesFacet_spec (articles : List Article) :
    (categoriesFacet articles).Nodup ∧
      (categoriesFacet articles).Sorted (· ≤ ·) ∧
      ∀ s : String, s ∈ categoriesFacet articles ↔
        (s ≠ "" ∧ ∃ a ∈ articles, a.main_category = some s) := by
  refine ⟨?_, ?_, ?_⟩
  · exact ((List.perm_insertionSort _ _).nodup_iff).mpr (List.nodup_dedup _)
  · exact List.sorted_insertionSort _ _
  · intro s
    rw [categoriesFacet, (List.perm_insertionSort _ _).mem_iff, List.mem_dedup,
      List.mem_filter]
    simp only [List.mem_filterMap, List.mem_map, id, decide_eq_true_iff]
    constructor
    · rintro ⟨⟨o, ⟨a, ha, rfl⟩, ho⟩, hs⟩
      exact ⟨hs, a, ha, ho⟩
    · rintro ⟨hs, a, ha, hcat⟩
      exact ⟨⟨a.main_category, ⟨a, ha, rfl⟩, hcat⟩, hs⟩

/-- Claim C10: the filtered collection is an order-preserving subsequence of
the raw collection — every filtered article appears in the raw collection and
relative order is preserved (`List.Sublist`). -/
theorem filtered_sublist_raw (jsDate : String → Option Int)
    (articles : List Article) (f : Filters) :
    List.Sublist (computeFiltered jsDate articles f) articles ∧
      ∀ a ∈ computeFiltered jsDate articles f, a ∈ articles := by
  have h : List.Sublist (computeFiltered jsDate articles f) articles :=
    (List.filter_sublist _).trans ((List.filter_sublist _).trans
      ((List.filter_sublist _).trans ((List.filter_sublist _).trans
        ((List.filter_sublist _).trans (List.filter_sublist _)))))
  exact ⟨h, fun a ha => h.subset ha⟩

/-- Claim C7: applying the same criteria twice in a row yields the same
filtered collection both times, and each application resets the current page
to 1. -/
theorem applyFilter_idempotent (jsDate : String → Option Int) (f : Filters)
    (s : AppState) :
    (applyFilter jsDate f (applyFilter jsDate f s)).filteredArticles =
        (applyFilter jsDate f s).filteredArticles ∧
      (applyFilter jsDate f s).currentPage = 1 ∧
      (applyFilter jsDate f (applyFilter jsDate f s)).currentPage = 1 :=
  ⟨rfl, rfl, rfl⟩

/-- Claim C6: toggling the favorite flag for an id that matches no article is
a silent no-op — the collection is returned exactly unchanged. -/
theorem toggleFavorite_missing_noop (l : List Article) (articleId : Int)
    (h : ∀ a ∈ l, a.id ≠ articleId) : toggleFavorite l articleId = l := by
  unfold toggleFavorite
  have hfind : l.find? (fun a => a.id == articleId) = none := by
    rw [List.find?_eq_none]
    intro a ha
    simpa using h a ha
  rw [hfind]

/-- Witness for C6 at a concrete input: id 42 matches no article. -/
theorem toggleFavorite_missing_noop_witness :
    (∀ a ∈ [sampleArticle], a.id ≠ 42) ∧
      toggleFavorite [sampleArticle] 42 = [sampleArticle] :=
  ⟨by decide, toggleFavorite_missing_noop [sampleArticle] 42 (by decide)⟩

lemma toggleOne_id (i : Int) (a : Article) : (toggleOne i a).id = a.id := by
  unfold toggleOne
  split <;> rfl

lemma toggleOne_involutive (i : Int) (a : Article) :
    toggleOne i (toggleOne i a) = a := by
  unfold toggleOne
  by_cases h : a.id == i
  · simp [h]
  · simp [h]

/-- Claim C5: when the id is present, toggling twice restores the collection
exactly, and a single toggle keeps the length, keeps every article with a
different id untouched, and on the matching article flips `is_favorite` while
preserving every other field. -/
theorem toggleFavorite_toggle_twice (l : List Article) (articleId : Int)
    (h : ∃ a ∈ l, a.id = articleId) :
    toggleFavorite (toggleFavorite l articleId) articleId = l ∧
      (toggleFavorite l articleId).length = l.length ∧
      ∀ (i : Nat) (hi : i < l.length)
        (hi2 : i < (toggleFavorite l articleId).length),
        ((l.get ⟨i, hi⟩).id ≠ articleId →
          (toggleFavorite l articleId).get ⟨i, hi2⟩ = l.get ⟨i, hi⟩) ∧
        ((l.get ⟨i, hi⟩).id = articleId →
          ((toggleFavorite l articleId).get ⟨i, hi2⟩).is_favorite =
              !(l.get ⟨i, hi⟩).is_favorite ∧
            ((toggleFavorite l articleId).get ⟨i, hi2⟩).id = (l.get ⟨i, hi⟩).id ∧
            ((toggleFavorite l articleId).get ⟨i, hi2⟩).title =
              (l.get ⟨i, hi⟩).title ∧
            ((toggleFavorite l articleId).get ⟨i, hi2⟩).link =
              (l.get ⟨i, hi⟩).link ∧
            ((toggleFavorite l articleId).get ⟨i, hi2⟩).published =
              (l.get ⟨i, hi⟩).published ∧
            ((toggleFavorite l articleId).get ⟨i, hi2⟩).source =
              (l.get ⟨i, hi⟩).source ∧
            ((toggleFavorite l articleId).get ⟨i, hi2⟩).summary =
              (l.get ⟨i, hi⟩).summary ∧
            ((toggleFavorite l articleId).get ⟨i, hi2⟩).keywords =
              (l.get ⟨i, hi⟩).keywords ∧
            ((toggleFavorite l articleId).get ⟨i, hi2⟩).main_category =
              (l.get ⟨i, hi⟩).main_category ∧
            ((toggleFavorite l articleId).get ⟨i, hi2⟩).sub_category =
              (l.get ⟨i, hi⟩).sub_category) := by
  obtain ⟨a, ha, haid⟩ := h
  have hsome : (l.find? (fun x => x.id == articleId)).isSome := by
    rw [List.find?_isSome]
    exact ⟨a, ha, by simp [haid]⟩
  obtain ⟨b, hb⟩ := Option.isSome_iff_exists.mp hsome
  have h1 : toggleFavorite l articleId = l.map (toggleOne articleId) := by
    unfold toggleFavorite
    rw [hb]
  have hsome2 :
      ((l.map (toggleOne articleId)).find? (fun x => x.id == articleId)).isSome := by
    rw [List.find?_isSome]
    exact ⟨toggleOne articleId a, List.mem_map_of_mem _ ha,
      by simp [toggleOne_id, haid]⟩
  obtain ⟨c, hc⟩ := Option.isSome_iff_exists.mp hsome2
  have h2 : toggleFavorite (l.map (toggleOne articleId)) articleId =
      (l.map (toggleOne articleId)).map (toggleOne articleId) := by
    unfold toggleFavorite
    rw [hc]
  have hfun : (toggleOne articleId ∘ toggleOne articleId) = id :=
    funext (toggleOne_involutive articleId)
  refine ⟨?_, ?_, ?_⟩
  · rw [h1, h2, List.map_map, hfun, List.map_id]
  · rw [h1, List.length_map]
  · intro i hi hi2
    have hmap : (l.map (toggleOne articleId)).get ⟨i, by simpa [h1] using hi2⟩ =
        toggleOne articleId (l.get ⟨i, hi⟩) := by
      simp [List.get_eq_getElem]
    have hget : (toggleFavorite l articleId).get ⟨i, hi2⟩ =
        toggleOne articleId (l.get ⟨i, hi⟩) :=
      (List.get_of_eq h1 ⟨i, hi2⟩).trans hmap
    constructor
    · intro hne
      rw [hget]
      unfold toggleOne
      rw [if_neg (by simpa using hne)]
    · intro heq
      rw [hget]
      unfold toggleOne
      rw [if_pos (by simpa using heq)]
      exact ⟨rfl, rfl, rfl, rfl, rfl, rfl, rfl, rfl, rfl, rfl⟩

/-- Witness for C5 at a concrete input: the only article has id 1. -/
theorem toggleFavorite_toggle_twice_witness :
    (∃ a ∈ [sampleArticle], a.id = 1) ∧
      (toggleFavorite (toggleFavorite [sampleArticle] 1) 1 = [sampleArticle] ∧
        (toggleFavorite [sampleArticle] 1).length = [sampleArticle].length ∧
        ∀ (i : Nat) (hi : i < [sampleArticle].length)
          (hi2 : i < (toggleFavorite [sampleArticle] 1).length),
          (([sampleArticle].get ⟨i, hi⟩).id ≠ 1 →
            (toggleFavorite [sampleArticle] 1).get ⟨i, hi2⟩ =
              [sampleArticle].get ⟨i, hi⟩) ∧
          (([sampleArticle].get ⟨i, hi⟩).id = 1 →
            ((toggleFavorite [sampleArticle] 1).get ⟨i, hi2⟩).is_favorite =
                !([sampleArticle].get ⟨i, hi⟩).is_favorite ∧
              ((toggleFavorite [sampleArticle] 1).get ⟨i, hi2⟩).id =
                ([sampleArticle].get ⟨i, hi⟩).id ∧
              ((toggleFavorite [sampleArticle] 1).get ⟨i, hi2⟩).title =
                ([sampleArticle].get ⟨i, hi⟩).title ∧
              ((toggleFavorite [sampleArticle] 1).get ⟨i, hi2⟩).link =
                ([sampleArticle].get ⟨i, hi⟩).link ∧
              ((toggleFavorite [sampleArticle] 1).get ⟨i, hi2⟩).published =
                ([sampleArticle].get ⟨i, hi⟩).published ∧
              ((toggleFavorite [sampleArticle] 1).get ⟨i, hi2⟩).source =
                ([sampleArticle].get ⟨i, hi⟩).source ∧
              ((toggleFavorite [sampleArticle] 1).get ⟨i, hi2⟩).summary =
                ([sampleArticle].get ⟨i, hi⟩).summary ∧
              ((toggleFavorite [sampleArticle] 1).get ⟨i, hi2⟩).keywords =
                ([sampleArticle].get ⟨i, hi⟩).keywords ∧
              ((toggleFavorite [sampleArticle] 1).get ⟨i, hi2⟩).main_category =
                ([sampleArticle].get ⟨i, hi⟩).main_category ∧
              ((toggleFavorite [sampleArticle] 1).get ⟨i, hi2⟩).sub_category =
                ([sampleArticle].get ⟨i, hi⟩).sub_category)) :=
  ⟨⟨sampleArticle, by decide⟩,
    toggleFavorite_toggle_twice [sampleArticle] 1 ⟨sampleArticle, by decide⟩⟩

lemma jsGe_none (y : Option Int) : jsGe none y = false := by
  cases y <;> rfl

lemma jsLe_none (y : Option Int) : jsLe none y = false := by
  cases y <;> rfl

/-- Claim C4: an article whose `published` value fails to parse (an Invalid
Date, `jsDate` returning `none`) never crashes evaluation (every predicate
here is total); it is excluded from the filtered collection whenever
`dateFrom` or `dateTo` is set, and both date sub-predicates accept it when
neither bound is set. -/
theorem malformed_published_excluded (jsDate : String → Option Int)
    (l : List Article) (f : Filters) (a : Article)
    (hbad : jsDate a.published = none) :
    ((f.dateFrom ≠ "" ∨ f.dateTo ≠ "") → a ∉ computeFiltered jsDate l f) ∧
      (f.dateFrom = "" → dateFromPred jsDate f a = true) ∧
      (f.dateTo = "" → dateToPred jsDate f a = true) := by
  refine ⟨?_, ?_, ?_⟩
  · intro hset hmem
    have h6 := List.mem_filter.mp hmem
    have h7 := List.mem_filter.mp h6.1
    have h8 := List.mem_filter.mp h7.1
    rcases hset with hdf | hdt
    · have := h8.2
      rw [dateFromPred, if_neg hdf, hbad, jsGe_none] at this
      cases this
    · have := h7.2
      rw [dateToPred, if_neg hdt, hbad, jsLe_none] at this
      cases this
  · intro h0
    simp [dateFromPred, h0]
  · intro h0
    simp [dateToPred, h0]

/-- Filter criteria with only the lower date bound set, for the C4 witness. -/
def dateFilters : Filters :=
  { searchTerm := "", selectedSource := "all", selectedCategory := "all",
    favoritesOnly := false, dateFrom := "2024-01-01", dateTo := "" }

/-- Witness for C4 at a concrete input: a date parser that rejects every
string makes `sampleArticle.published` malformed. -/
theorem malformed_published_excluded_witness :
    ((fun _ : String => (none : Option Int)) sampleArticle.published = none) ∧
      (((dateFilters.dateFrom ≠ "" ∨ dateFilters.dateTo ≠ "") →
          sampleArticle ∉
            computeFiltered (fun _ => none) [sampleArticle] dateFilters) ∧
        (dateFilters.dateFrom = "" →
          dateFromPred (fun _ => none) dateFilters sampleArticle = true) ∧
        (dateFilters.dateTo = "" →
          dateToPred (fun _ => none) dateFilters sampleArticle = true)) :=
  ⟨rfl, malformed_published_excluded (fun _ => none) [sampleArticle]
    dateFilters sampleArticle rfl⟩

/-- Claim C8: the renderer yields the "insufficient data" signal (and draws
nothing) exactly when the graph is absent or has zero nodes or zero edges;
and the drawn edge segments are unchanged when the edges whose source or
target id resolves to no node are removed — such edges are skipped without
error and without affecting the other edges. -/
theorem network_render_spec (posOf : Nat → ℚ × ℚ) :
    render posOf none = RenderResult.insufficient ∧
      (∀ d : NetworkData, render posOf (some d) = RenderResult.insufficient ↔
        (d.nodes = [] ∨ d.edges = [])) ∧
      (∀ (ns : List (NetNode × ℚ × ℚ)) (edges : List NetEdge),
        edgeSegments ns edges =
          edgeSegments ns (edges.filter (fun e =>
            (findNode ns e.source).isSome && (findNode ns e.target).isSome))) := by
  refine ⟨rfl, ?_, ?_⟩
  · intro d
    simp only [render]
    split
    case isTrue h =>
      refine iff_of_true rfl ?_
      simpa [List.isEmpty_iff] using h
    case isFalse h =>
      refine iff_of_false (by simp) ?_
      simpa [List.isEmpty_iff, not_or] using h
  · intro ns edges
    induction edges with
    | nil => rfl
    | cons e es ih =>
      cases hs : findNode ns e.source <;> cases ht : findNode ns e.target <;>
        simp [edgeSegments, List.filterMap_cons, List.filter_cons, hs, ht,
          ← ih] <;>
        simp [edgeSegments] at ih ⊢ <;> exact ih

/-- Claim C9: the six batched fetches are joined atomically — if any single
fetch rejects, no state slice is updated (the whole state is unchanged), and
if all six succeed, all six slices are updated to the fetched values (and the
untouched slices stay). -/
theorem loadAllData_atomic {ε : Type} (s : AppState) (r : FetchResults ε) :
    ((∃ e : ε, r.articles = .error e ∨ r.keywordStats = .error e ∨
        r.categoryStats = .error e ∨ r.network = .error e ∨
        r.stats = .error e ∨ r.collections = .error e) →
      loadAllData s r = s) ∧
      (∀ a k c n st co, r.articles = .ok a → r.keywordStats = .ok k →
        r.categoryStats = .ok c → r.network = .ok n → r.stats = .ok st →
        r.collections = .ok co →
        (loadAllData s r).articles = a ∧
          (loadAllData s r).keywordStats = k ∧
          (loadAllData s r).categoryStats = c ∧
          (loadAllData s r).networkData = some n ∧
          (loadAllData s r).stats = some st ∧
          (loadAllData s r).collections = co ∧
          (loadAllData s r).filteredArticles = s.filteredArticles ∧
          (loadAllData s r).currentPage = s.currentPage) := by
  rcases r with ⟨ra, rk, rc, rn, rst, rco⟩
  constructor
  · rintro ⟨e, he⟩
    cases ra <;> cases rk <;> cases rc <;> cases rn <;> cases rst <;>
      cases rco <;>
      simp_all [loadAllData, promiseAll, Bind.bind, Except.bind]
  · intro a k c n st co ha hk hc hn hst hco
    cases ha
    cases hk
    cases hc
    cases hn
    cases hst
    cases hco
    exact ⟨rfl, rfl, rfl, rfl, rfl, rfl, rfl, rfl⟩

/-- All-ok and one-rejection fetch batches plus an initial state, for the C9
witness. -/
def okFetch : FetchResults String :=
  { articles := .ok [sampleArticle], keywordStats := .ok [],
    categoryStats := .ok [], network := .ok ⟨[], []⟩,
    stats := .ok ⟨0, 0, 0, []⟩, collections := .ok [] }

def errFetch : FetchResults String :=
  { articles := .error "network error", keywordStats := .ok [],
    categoryStats := .ok [], network := .ok ⟨[], []⟩,
    stats := .ok ⟨0, 0, 0, []⟩, collections := .ok [] }

def initState : AppState :=
  { articles := [], filteredArticles := [], stats := none, keywordStats := [],
    categoryStats := [], networkData := none, collections := [],
    currentPage := 1 }

/-- Witness for C9: a batch whose articles fetch rejects leaves the state
unchanged; an all-ok batch updates the articles slice. -/
theorem loadAllData_atomic_witness :
    loadAllData initState errFetch = initState ∧
      (loadAllData initState okFetch).articles = [sampleArticle] :=
  ⟨(loadAllData_atomic initState errFetch).1 ⟨"network error", Or.inl rfl⟩,
    ((loadAllData_atomic initState okFetch).2 [sampleArticle] [] [] ⟨[], []⟩
      ⟨0, 0, 0, []⟩ [] rfl rfl rfl rfl rfl rfl).1⟩

lemma le_cdiv_mul (n P : Nat) (hP : 0 < P) : n ≤ ((n + P - 1) / P) * P := by
  rcases Nat.eq_zero_or_pos n with h0 | hn
  · simp [h0]
  · have key := Nat.div_add_mod (n + P - 1) P
    have hmod := Nat.mod_lt (n + P - 1) hP
    have hcomm : ((n + P - 1) / P) * P = P * ((n + P - 1) / P) := Nat.mul_comm _ _
    omega

lemma cdiv_mul_lt (n P : Nat) (hP : 0 < P) (hn : 0 < n) :
    (((n + P - 1) / P) - 1) * P < n := by
  have key := Nat.div_add_mod (n + P - 1) P
  have hmod := Nat.mod_lt (n + P - 1) hP
  have h1 : 1 ≤ (n + P - 1) / P := by
    rw [Nat.le_div_iff_mul_le hP]
    omega
  have hsub := Nat.sub_mul ((n + P - 1) / P) 1 P
  have hcomm : ((n + P - 1) / P) * P = P * ((n + P - 1) / P) := Nat.mul_comm _ _
  omega

/-- `Math.ceil(n / P)` agrees with the rounded-up natural division. -/
lemma totalPages_eq (n P : Nat) (hP : 0 < P) :
    totalPages n P = (n + P - 1) / P := by
  rcases Nat.eq_zero_or_pos n with h0 | hn
  · subst h0
    rw [totalPages, Nat.cast_zero, zero_div, Nat.ceil_zero]
    exact (Nat.div_eq_of_lt (by omega)).symm
  · have hPQ : (0 : ℚ) < (P : ℚ) := by exact_mod_cast hP
    have hT1 : 1 ≤ (n + P - 1) / P := by
      rw [Nat.le_div_iff_mul_le hP]
      omega
    rw [totalPages, Nat.ceil_eq_iff (by omega)]
    constructor
    · rw [lt_div_iff₀ hPQ]
      exact_mod_cast cdiv_mul_lt n P hP hn
    · rw [div_le_iff₀ hPQ]
      exact_mod_cast le_cdiv_mul n P hP

lemma paginate_one (l : List Article) (P : Nat) : paginate l 1 P = l.take P := by
  simp [paginate]

lemma paginate_succ (l : List Article) (k P : Nat) (hk : 1 ≤ k) :
    paginate l (k + 1) P = paginate (l.drop P) k P := by
  have hkP : P ≤ k * P := by
    have := Nat.mul_le_mul_right P hk
    simpa using this
  have h1 : (k + 1) * P - k * P = P := by
    have := Nat.add_mul k 1 P
    omega
  have h2 : k * P - (k - 1) * P = P := by
    have := Nat.sub_mul k 1 P
    omega
  have h3 : P + (k - 1) * P = k * P := by
    have := Nat.sub_mul k 1 P
    omega
  rw [paginate, paginate, List.drop_drop, h3]
  have h4 : k + 1 - 1 = k := by omega
  rw [h4, h1, h2]

lemma sum_paginate_cdiv (P : Nat) (hP : 0 < P) :
    ∀ (N : Nat) (l : List Article), l.length = N →
      ∑ i ∈ Finset.range ((N + P - 1) / P), (paginate l (i + 1) P).length = N := by
  intro N
  induction N using Nat.strong_induction_on with
  | _ N ih =>
    intro l hl
    rcases Nat.eq_zero_or_pos N with h0 | hN
    · subst h0
      rw [show (0 + P - 1) / P = 0 from Nat.div_eq_of_lt (by omega)]
      simp
    · have hrec : (N + P - 1) / P = (N - P + P - 1) / P + 1 := by
        have e1 : N + P - 1 = (N - 1) + P := by omega
        rw [e1, Nat.add_div_right _ hP]
        congr 1
        rcases le_or_lt N P with hNP | hNP
        · have e0 : N - P = 0 := by omega
          rw [e0, Nat.div_eq_of_lt (by omega), Nat.div_eq_of_lt (by omega)]
        · have e2 : N - P + P - 1 = (N - P - 1) + P := by omega
          have e3 : N - 1 = (N - 1 - P) + P := by omega
          rw [e2, Nat.add_div_right _ hP, e3, Nat.add_div_right _ hP]
          have e4 : N - 1 - P = N - P - 1 := by omega
          rw [e4]
      rw [hrec, Finset.sum_range_succ']
      have hterm : ∀ i : Nat,
          (paginate l (i + 1 + 1) P).length = (paginate (l.drop P) (i + 1) P).length :=
        fun i => congrArg List.length (paginate_succ l (i + 1) P (by omega))
      rw [Finset.sum_congr rfl (fun i _ => hterm i)]
      have hdl : (l.drop P).length = N - P := by simp [hl]
      rw [ih (N - P) (by omega) (l.drop P) hdl, paginate_one]
      have htl : (l.take P).length = min P N := by simp [hl]
      rw [htl]
      omega

lemma paginate_beyond (l : List Article) (P k : Nat) (hP : 0 < P)
    (hk : totalPages l.length P < k) : paginate l k P = [] := by
  rw [totalPages_eq _ _ hP] at hk
  have hup : l.length ≤ ((l.length + P - 1) / P) * P := le_cdiv_mul _ _ hP
  have hle : ((l.length + P - 1) / P) * P ≤ (k - 1) * P :=
    Nat.mul_le_mul_right P (by omega)
  rw [paginate, List.drop_eq_nil_of_le (by omega)]
  simp

/-- Claim C3: `totalPages` is the ceiling of `N / P` (`0` when `N = 0`,
characterised here by `totalPages 0 P = 0`, `N ≤ totalPages * P` and, for
nonempty collections, `(totalPages - 1) * P < N`); every 1-indexed page
request beyond the last page returns an empty slice; the page slice lengths
sum to `N`; and the pagination control is rendered exactly when
`totalPages > 1`. -/
theorem pagination_spec (l : List Article) (P : Nat) (hP : 0 < P) :
    totalPages 0 P = 0 ∧
      l.length ≤ totalPages l.length P * P ∧
      (l.length ≠ 0 → (totalPages l.length P - 1) * P < l.length) ∧
      (∀ k, totalPages l.length P < k → paginate l k P = []) ∧
      (∑ i ∈ Finset.range (totalPages l.length P),
          (paginate l (i + 1) P).length) = l.length ∧
      (showPagination l = true ↔ 1 < totalPages l.length itemsPerPage) := by
  refine ⟨?_, ?_, ?_, ?_, ?_, ?_⟩
  · rw [totalPages_eq 0 P hP, Nat.div_eq_of_lt (by omega)]
  · rw [totalPages_eq _ _ hP]
    exact le_cdiv_mul _ _ hP
  · intro h0
    rw [totalPages_eq _ _ hP]
    exact cdiv_mul_lt _ _ hP (by omega)
  · intro k hk
    exact paginate_beyond l P k hP hk
  · rw [totalPages_eq _ _ hP]
    exact sum_paginate_cdiv P hP l.length l rfl
  · simp [showPagination, totalPages, decide_eq_true_iff]

/-- Witness for C3: 25 articles, page size 10. -/
theorem pagination_spec_witness :
    0 < 10 ∧
      (totalPages 0 10 = 0 ∧
        (List.replicate 25 sampleArticle).length ≤
          totalPages (List.replicate 25 sampleArticle).length 10 * 10 ∧
        ((List.replicate 25 sampleArticle).length ≠ 0 →
          (totalPages (List.replicate 25 sampleArticle).length 10 - 1) * 10 <
            (List.replicate 25 sampleArticle).length) ∧
        (∀ k, totalPages (List.replicate 25 sampleArticle).length 10 < k →
          paginate (List.replicate 25 sampleArticle) k 10 = []) ∧
        (∑ i ∈ Finset.range
            (totalPages (List.replicate 25 sampleArticle).length 10),
            (paginate (List.replicate 25 sampleArticle) (i + 1) 10).length) =
          (List.replicate 25 sampleArticle).length ∧
        (showPagination (List.replicate 25 sampleArticle) = true ↔
          1 < totalPages (List.replicate 25 sampleArticle).length
            itemsPerPage)) :=
  ⟨by decide, pagination_spec (List.replicate 25 sampleArticle) 10 (by decide)⟩

end NewsApp
